import Mathlib

/-!
Shallow embedding of the depupdate command-line utility (src/unnamed/part_001).

The tool probes for lockfiles, reads the manifest's four dependency
categories, plans one update command per non-empty category, and then runs a
bounded audit/fix loop.  Subprocess execution is modelled by the commands the
program would pass to the runner (its trace) together with an oracle giving
each audit invocation's stdout.
-/

namespace Depupdate

/-! ## Process Runner (run / runPrintErrors) -/

/-- Result of one subprocess execution as delivered to the exec callback:
captured stdout, captured stderr, and the optional error indicator. -/
structure ExecResult where
  stdout : String
  stderr : String
  error : Option String
deriving DecidableEq

/-- Embedding of `run`: resolves the promise with the (stdout, stderr, error)
triple for every outcome (the callback always resolves, never rejects), and
logs each stdout line at debug level (second component). -/
def run (r : ExecResult) : (String × String × Option String) × List String :=
  ((r.stdout, r.stderr, r.error), r.stdout.splitOn "\n")

/-- Embedding of `runPrintErrors`: calls `run`, and when an error indicator is
present or stderr is non-empty, forwards every non-blank (trimmed) line of
stderr to the logger at error level (second component); returns the same
triple. -/
def runPrintErrors (r : ExecResult) : (String × String × Option String) × List String :=
  let res := run r
  let stdout := res.1.1
  let stderr := res.1.2.1
  let error := res.1.2.2
  let errorLog :=
    if error.isSome || stderr.length != 0 then
      ((stderr.splitOn "\n").filter (fun line => line.trim.length != 0)).map
        (fun line => line.trim)
    else []
  ((stdout, stderr, error), errorLog)

/-! ## Vulnerability count parsing (check_for_vulnerabilities) -/

/-- Value of a digit string as parsed by parseInt on a run of decimal digits. -/
def digitsToNat (ds : List Char) : Nat :=
  ds.foldl (fun acc c => acc * 10 + (c.toNat - '0'.toNat)) 0

/-- The vulnerability count extracted from audit stdout.  The source matches
the pattern of zero-or-more digits; the first match is the maximal digit run
at position 0 of the string (possibly empty, since the pattern matches the
empty string), and parseInt is applied to it, with an empty match replaced by
the string of a single zero digit.  Hence: the leading digit run of stdout,
parsed as a number, and 0 when stdout does not start with a digit. -/
def vuln_count (stdout : String) : Nat :=
  digitsToNat (stdout.data.takeWhile Char.isDigit)

/-- Embedding of `check_for_vulnerabilities`: the match against the
digit-run pattern never fails (the early false return on a null match is
dead code), so the result is exactly whether the parsed count is nonzero. -/
def check_for_vulnerabilities (stdout : String) : Bool :=
  vuln_count stdout != 0

/-! ## Dependency formatting and the category table -/

/-- The hardcoded standard development dependency list installed in setup
mode. -/
def standardDevDependencies : List String :=
  ["@types/mocha", "@types/node", "@typescript-eslint/eslint-plugin",
   "@typescript-eslint/parser", "eslint", "eslint-config-standard",
   "eslint-plugin-import", "eslint-plugin-n", "eslint-plugin-node",
   "eslint-plugin-promise", "mocha", "ts-node", "typedoc", "typescript"]

/-- Embedding of `format_dep`: joins the dependency names with single spaces,
first suffixing each name with the latest marker when `latest` is set. -/
def format_dep (dependencies : List String) (latest : Bool) : String :=
  String.intercalate " "
    (if latest then dependencies.map (fun dep => dep ++ "@latest") else dependencies)

/-- The key lists of the four optional sub-mappings of package.json
(Object.keys of each, defaulting to empty when the mapping is absent). -/
structure Manifest where
  dependencies : List String
  devDependencies : List String
  peerDependencies : List String
  optionalDependencies : List String
deriving DecidableEq

/-- One entry of the dependency category table: display name, item list, and
the optional per-manager flag strings. -/
structure Category where
  name : String
  items : List String
  flags_yarn : Option String
  flags_npm : Option String
deriving DecidableEq

/-- Embedding of the `dependencies` table built in the main IIFE: the four
categories in source order with their flag mappings. -/
def dependenciesTable (config : Manifest) : List Category :=
  [⟨"dependencies", config.dependencies, none, some "--save"⟩,
   ⟨"development dependencies", config.devDependencies, some "--dev", some "--save-dev"⟩,
   ⟨"peer dependencies", config.peerDependencies, some "--peer", none⟩,
   ⟨"optional dependencies", config.optionalDependencies, some "--optional", some "--save-optional"⟩]

/-! ## Command selection and the update loop -/

/-- Embedding of the `cmd` assignment chain of the main IIFE (the value the
variable holds after the lockfile branch, in the non-exiting cases; it keeps
its initial value when neither lockfile is present). -/
def selectCmd (is_npm is_yarn latest : Bool) : String :=
  if is_npm then "npm install"
  else if is_yarn then (if !latest then "yarn upgrade" else "yarn add")
  else "yarn"

/-- The command line built for one category in the update loop:
base command, then the manager-keyed flag (empty string when the category's
flag mapping has no entry for the manager), then the formatted items. -/
def command_line (is_yarn : Bool) (cmd : String) (latest : Bool) (c : Category) : String :=
  cmd ++ " " ++ (if is_yarn then c.flags_yarn.getD "" else c.flags_npm.getD "")
      ++ " " ++ format_dep c.items latest

/-- Embedding of the update loop: for each category in order, skip it when its
item list is empty, otherwise emit its command line. -/
def updateCommands (is_yarn : Bool) (cmd : String) (latest : Bool) : List Category → List String
  | [] => []
  | c :: rest =>
    if c.items.length = 0 then updateCommands is_yarn cmd latest rest
    else command_line is_yarn cmd latest c :: updateCommands is_yarn cmd latest rest

/-! ## Audit loop -/

/-- The audit command run on each attempt, by manager. -/
def auditCmd (is_npm : Bool) : String :=
  if is_npm then "npm audit" else "yarn audit"

/-- Stands for the resolved path of the bundled yarn-audit-fix binary
(resolve of swd/../node_modules/.bin/yarn-audit-fix); the path-resolution
of the ambient install directory is abstracted to the binary's name. -/
def yarnAuditFixPath : String :=
  "yarn-audit-fix"

/-- The audit-fix command run when vulnerabilities are reported, by manager. -/
def auditFixCmd (is_npm : Bool) : String :=
  if is_npm then "npm audit fix" else yarnAuditFixPath

/-- One unrolling of the audit for-loop: `i` is the loop counter, `remaining`
the number of iterations the loop bound still allows (2 - i); `outs i` is the
stdout the i-th audit invocation produces.  Each iteration audits, then either
fixes and continues, or breaks. -/
def auditLoopAux (is_npm : Bool) (outs : Nat → String) : Nat → Nat → List String
  | _, 0 => []
  | i, remaining + 1 =>
    if check_for_vulnerabilities (outs i) then
      auditCmd is_npm :: auditFixCmd is_npm :: auditLoopAux is_npm outs (i + 1) remaining
    else [auditCmd is_npm]

/-- Embedding of the audit loop of the main IIFE (`for i in 0..<2`): the
sequence of commands handed to the runner, given the audit stdout oracle. -/
def auditLoop (is_npm : Bool) (outs : Nat → String) : List String :=
  auditLoopAux is_npm outs 0 2

/-! ## The main IIFE -/

/-- Observable outcome of a whole run: either an explicit process exit with a
code, or completion by falling through; each carries the trace of commands
handed to the runner, in order. -/
inductive Outcome where
  | exited (code : Nat) (trace : List String)
  | completed (trace : List String)
deriving DecidableEq

/-- The single command run in setup mode. -/
def setupCommand (is_npm latest : Bool) : String :=
  if is_npm then "npm install --save --dev " ++ format_dep standardDevDependencies latest
  else "yarn add --dev " ++ format_dep standardDevDependencies latest

/-- Embedding of the main IIFE: lockfile conflict and absent-manager checks
(each exiting with code 1 before any subprocess runs), then either the setup
command or the update loop followed by the audit loop. -/
def depupdate_main (is_yarn is_npm latest setup : Bool) (config : Manifest)
    (auditOuts : Nat → String) : Outcome :=
  if is_npm && is_yarn then Outcome.exited 1 []
  else if !is_npm && !is_yarn && !setup then Outcome.exited 1 []
  else if setup then Outcome.completed [setupCommand is_npm latest]
  else Outcome.completed
    (updateCommands is_yarn (selectCmd is_npm is_yarn latest) latest (dependenciesTable config)
      ++ auditLoop is_npm auditOuts)

/-! ## Helper lemmas -/

/-- Full characterization of the audit loop trace by the first two audit
outputs: zero count stops at once; a nonzero count triggers the fix command,
also on the second (final) attempt. -/
theorem auditLoop_eq (is_npm : Bool) (outs : Nat → String) :
    auditLoop is_npm outs =
      if check_for_vulnerabilities (outs 0) then
        if check_for_vulnerabilities (outs 1) then
          [auditCmd is_npm, auditFixCmd is_npm, auditCmd is_npm, auditFixCmd is_npm]
        else [auditCmd is_npm, auditFixCmd is_npm, auditCmd is_npm]
      else [auditCmd is_npm] := by
  cases h0 : check_for_vulnerabilities (outs 0) with
  | false => simp [auditLoop, auditLoopAux, h0]
  | true =>
    cases h1 : check_for_vulnerabilities (outs 1) <;>
      simp [auditLoop, auditLoopAux, h0, h1]

/-- The audit command and the audit-fix command are distinct strings for both
managers. -/
theorem auditCmd_ne_auditFixCmd (is_npm : Bool) : auditCmd is_npm ≠ auditFixCmd is_npm := by
  cases is_npm <;> decide

/-- C1: in update mode the audit loop performs at most 2 audit invocations
regardless of the reported vulnerability counts, and whenever an audit's
parsed count is zero the loop stops immediately: a zero count on the first
audit yields a one-audit trace, and a zero count on the second audit ends
the trace at that audit with no further command. -/
theorem c1_audit_loop_bounded (is_npm : Bool) (outs : Nat → String) :
    (auditLoop is_npm outs).count (auditCmd is_npm) ≤ 2 ∧
    (check_for_vulnerabilities (outs 0) = false →
      auditLoop is_npm outs = [auditCmd is_npm]) ∧
    (check_for_vulnerabilities (outs 0) = true →
      check_for_vulnerabilities (outs 1) = false →
      auditLoop is_npm outs = [auditCmd is_npm, auditFixCmd is_npm, auditCmd is_npm]) := by
  have hne : auditCmd is_npm ≠ auditFixCmd is_npm := auditCmd_ne_auditFixCmd is_npm
  have hne' : auditFixCmd is_npm ≠ auditCmd is_npm := (auditCmd_ne_auditFixCmd is_npm).symm
  cases h0 : check_for_vulnerabilities (outs 0) <;>
    cases h1 : check_for_vulnerabilities (outs 1) <;>
      refine ⟨?_, ?_, ?_⟩ <;>
        simp [auditLoop_eq, h0, h1, List.count_cons, List.count_nil, hne, hne']

/-- C1 witness: with both audits reporting a zero count, the loop performs a
single audit and stops. -/
theorem c1_witness :
    check_for_vulnerabilities "0 vulnerabilities found" = false ∧
    auditLoop true (fun _ => "0 vulnerabilities found") = [auditCmd true] :=
  ⟨by decide,
   (c1_audit_loop_bounded true (fun _ => "0 vulnerabilities found")).2.1 (by decide)⟩

/-- C2 counterexample: when both audits report a nonzero count, the fix
command runs again after the second (final) audit, so the trace ends in a fix
invocation and contains two fix invocations, contradicting the claim that a
nonzero count at attempt 2 transitions directly to Done. -/
theorem c2_counterexample :
    auditLoop true (fun _ => "5 vulnerabilities found")
      = ["npm audit", "npm audit fix", "npm audit", "npm audit fix"] ∧
    (auditLoop true (fun _ => "5 vulnerabilities found")).count "npm audit fix" = 2 := by
  decide

/-- C2 (amended): the Fixing state is entered whenever the parsed count is
nonzero, at the first and also at the second (final) attempt; after the fix
following the second audit the loop is Done, so the trace is fully determined
by the two counts and contains at most 2 audit and at most 2 fix
invocations. -/
theorem c2_amended_fix_transitions (is_npm : Bool) (outs : Nat → String) :
    auditLoop is_npm outs =
      (if check_for_vulnerabilities (outs 0) then
        if check_for_vulnerabilities (outs 1) then
          [auditCmd is_npm, auditFixCmd is_npm, auditCmd is_npm, auditFixCmd is_npm]
        else [auditCmd is_npm, auditFixCmd is_npm, auditCmd is_npm]
      else [auditCmd is_npm]) ∧
    (auditLoop is_npm outs).count (auditFixCmd is_npm) ≤ 2 := by
  have hne : auditCmd is_npm ≠ auditFixCmd is_npm := auditCmd_ne_auditFixCmd is_npm
  have hne' : auditFixCmd is_npm ≠ auditCmd is_npm := (auditCmd_ne_auditFixCmd is_npm).symm
  refine ⟨auditLoop_eq is_npm outs, ?_⟩
  cases h0 : check_for_vulnerabilities (outs 0) <;>
    cases h1 : check_for_vulnerabilities (outs 1) <;>
      simp [auditLoop_eq, h0, h1, List.count_cons, List.count_nil, hne, hne']

/-- C3: the vulnerability count is the leading digit run of the audit stdout
parsed as an integer (zero when there is none): "0 vulnerabilities found"
parses to 0 and triggers no fix, "5 vulnerabilities found" parses to 5 and
triggers one fix followed by a re-audit. -/
theorem c3_vuln_parse_examples :
    vuln_count "0 vulnerabilities found" = 0 ∧
    check_for_vulnerabilities "0 vulnerabilities found" = false ∧
    auditLoop true (fun _ => "0 vulnerabilities found") = ["npm audit"] ∧
    vuln_count "5 vulnerabilities found" = 5 ∧
    check_for_vulnerabilities "5 vulnerabilities found" = true ∧
    auditLoop true (fun i => if i = 0 then "5 vulnerabilities found" else "0 vulnerabilities found")
      = ["npm audit", "npm audit fix", "npm audit"] ∧
    vuln_count "" = 0 := by
  decide

/-- C10: when the first character of the audit stdout is not a digit, the
parsed count is zero and no fix is invoked, even if a nonzero digit run
appears later in the string, because the digit pattern matches the empty
string at position 0. -/
theorem c10_nondigit_start_reports_zero (is_npm : Bool) (c : Char) (s : List Char)
    (h : c.isDigit = false) :
    vuln_count (String.mk (c :: s)) = 0 ∧
    check_for_vulnerabilities (String.mk (c :: s)) = false ∧
    auditLoop is_npm (fun _ => String.mk (c :: s)) = [auditCmd is_npm] := by
  have hv : vuln_count (String.mk (c :: s)) = 0 := by
    simp [vuln_count, List.takeWhile_cons, h, digitsToNat]
  have hc : check_for_vulnerabilities (String.mk (c :: s)) = false := by
    simp [check_for_vulnerabilities, hv]
  refine ⟨hv, hc, ?_⟩
  simp [auditLoop_eq, hc]

/-- C10 witness: stdout starting with a letter, with a nonzero digit run
later, reports no vulnerabilities. -/
theorem c10_witness :
    ('n' : Char).isDigit = false ∧
    check_for_vulnerabilities (String.mk ('n' :: "o 5 vulnerabilities".data)) = false :=
  ⟨by decide,
   (c10_nondigit_start_reports_zero true 'n' "o 5 vulnerabilities".data (by decide)).2.1⟩

/-- The update loop is the map of the per-category command line over the
categories with a non-empty item list, in order. -/
theorem updateCommands_eq_filter_map (is_yarn : Bool) (cmd : String) (latest : Bool) :
    ∀ cats : List Category,
      updateCommands is_yarn cmd latest cats
        = (cats.filter (fun c => !c.items.isEmpty)).map (command_line is_yarn cmd latest)
  | [] => rfl
  | c :: rest => by
    cases h : c.items with
    | nil =>
      simp [updateCommands, h, List.filter_cons,
        updateCommands_eq_filter_map is_yarn cmd latest rest]
    | cons a as =>
      simp [updateCommands, h, List.filter_cons,
        updateCommands_eq_filter_map is_yarn cmd latest rest]

/-- C4: in update mode each category with a non-empty item list yields exactly
one command, of the form base verb, manager-keyed category flag, formatted
item list; an unmapped flag defaults to the empty string, and the peer
category's flag mapping has no npm entry, so under npm its command carries the
empty flag. -/
theorem c4_one_command_per_category (is_yarn : Bool) (cmd : String) (latest : Bool)
    (cats : List Category) (config : Manifest) (items : List String) :
    updateCommands is_yarn cmd latest cats
      = (cats.filter (fun c => !c.items.isEmpty)).map (command_line is_yarn cmd latest) ∧
    (∀ c : Category, command_line is_yarn cmd latest c
      = cmd ++ " " ++ (if is_yarn then c.flags_yarn.getD "" else c.flags_npm.getD "")
          ++ " " ++ format_dep c.items latest) ∧
    (dependenciesTable config).map Category.flags_npm
      = [some "--save", some "--save-dev", none, some "--save-optional"] ∧
    command_line false cmd latest ⟨"peer dependencies", items, some "--peer", none⟩
      = cmd ++ " " ++ "" ++ " " ++ format_dep items latest :=
  ⟨updateCommands_eq_filter_map is_yarn cmd latest cats, fun _ => rfl, rfl, rfl⟩

/-- C5: update commands appear in the fixed category order runtime,
development, peer, optional, an empty category contributing no command; in
particular a manifest whose four sub-mappings are all empty produces zero
update commands. -/
theorem c5_fixed_category_order (config : Manifest) (is_yarn : Bool) (cmd : String)
    (latest : Bool) :
    updateCommands is_yarn cmd latest (dependenciesTable config)
      = (if config.dependencies.isEmpty then [] else
          [command_line is_yarn cmd latest
            ⟨"dependencies", config.dependencies, none, some "--save"⟩])
        ++ (if config.devDependencies.isEmpty then [] else
          [command_line is_yarn cmd latest
            ⟨"development dependencies", config.devDependencies, some "--dev", some "--save-dev"⟩])
        ++ (if config.peerDependencies.isEmpty then [] else
          [command_line is_yarn cmd latest
            ⟨"peer dependencies", config.peerDependencies, some "--peer", none⟩])
        ++ (if config.optionalDependencies.isEmpty then [] else
          [command_line is_yarn cmd latest
            ⟨"optional dependencies", config.optionalDependencies, some "--optional",
              some "--save-optional"⟩]) ∧
    (config.dependencies = [] → config.devDependencies = [] →
     config.peerDependencies = [] → config.optionalDependencies = [] →
     updateCommands is_yarn cmd latest (dependenciesTable config) = []) := by
  obtain ⟨d, dv, p, o⟩ := config
  constructor
  · cases d <;> cases dv <;> cases p <;> cases o <;>
      simp [dependenciesTable, updateCommands]
  · intro h1 h2 h3 h4
    subst h1; subst h2; subst h3; subst h4
    rfl

/-- C5 witness: the all-empty manifest yields zero update commands. -/
theorem c5_witness :
    updateCommands true "yarn upgrade" false (dependenciesTable ⟨[], [], [], []⟩) = [] :=
  (c5_fixed_category_order ⟨[], [], [], []⟩ true "yarn upgrade" false).2 rfl rfl rfl rfl

/-- C6 counterexample: under npm the base command is "npm install" whether or
not useLatestVersions is set, so the base verb does not depend on the flag for
the npm manager kind and no upgrade verb is used when the flag is unset. -/
theorem c6_counterexample :
    selectCmd true false false = selectCmd true false true ∧
    selectCmd true false false = "npm install" :=
  ⟨rfl, rfl⟩

/-- C6 (amended): the base verb depends on useLatestVersions only for yarn,
where an install verb (yarn add) is used when the flag is set and an upgrade
verb (yarn upgrade) otherwise; for npm the base verb is the install verb
"npm install" regardless of the flag. -/
theorem c6_amended_base_verb (latest : Bool) :
    selectCmd true false latest = "npm install" ∧
    selectCmd false true true = "yarn add" ∧
    selectCmd false true false = "yarn upgrade" := by
  cases latest <;> exact ⟨rfl, rfl, rfl⟩

/-- C7: when both lockfiles are detected, and when neither lockfile is
detected outside setup mode, the run exits with code 1 having invoked zero
subprocesses, for every flag combination, manifest, and audit oracle. -/
theorem c7_fatal_exits_before_subprocess (latest setup latest' : Bool)
    (config config' : Manifest) (outs outs' : Nat → String) :
    depupdate_main true true latest setup config outs = Outcome.exited 1 [] ∧
    depupdate_main false false latest' false config' outs' = Outcome.exited 1 [] :=
  ⟨rfl, rfl⟩

/-- C9: formatting with useLatestVersions set appends the latest marker to
every package name before joining with spaces; without the flag the names are
joined unmodified. -/
theorem c9_format_dep_latest (deps : List String) :
    format_dep deps true = String.intercalate " " (deps.map (fun dep => dep ++ "@latest")) ∧
    format_dep deps false = String.intercalate " " deps :=
  ⟨rfl, rfl⟩

/-- The error log emitted by runPrintErrors, unfolded. -/
theorem runPrintErrors_snd (r : ExecResult) :
    (runPrintErrors r).2 =
      if r.error.isSome || r.stderr.length != 0 then
        ((r.stderr.splitOn "\n").filter (fun line => line.trim.length != 0)).map
          (fun line => line.trim)
      else [] := rfl

/-- C8: the runner reports subprocess failure solely through the error
component of the returned triple, which is produced for every execution
outcome; and runPrintErrors forwards exactly the non-blank (trimmed) lines of
stderr to the error log precisely when an error indicator is present or
stderr is non-empty. -/
theorem c8_runner_error_reporting (r : ExecResult) :
    (runPrintErrors r).1 = (r.stdout, r.stderr, r.error) ∧
    (∀ l : String, l ∈ (runPrintErrors r).2 ↔
      ((r.error.isSome = true ∨ r.stderr.length ≠ 0) ∧
       ∃ raw, raw ∈ r.stderr.splitOn "\n" ∧ raw.trim.length ≠ 0 ∧ raw.trim = l)) := by
  refine ⟨rfl, fun l => ?_⟩
  rw [runPrintErrors_snd]
  cases hcond : (r.error.isSome || r.stderr.length != 0) with
  | true =>
    rw [if_pos rfl]
    have hor : r.error.isSome = true ∨ r.stderr.length ≠ 0 := by
      rcases Bool.or_eq_true_iff.mp hcond with h | h
      · exact Or.inl h
      · exact Or.inr (by simpa using h)
    simp only [List.mem_map, List.mem_filter, bne_iff_ne, ne_eq]
    constructor
    · rintro ⟨raw, ⟨hmem, hlen⟩, heq⟩
      exact ⟨hor, raw, hmem, hlen, heq⟩
    · rintro ⟨-, raw, hmem, hlen, heq⟩
      exact ⟨raw, ⟨hmem, hlen⟩, heq⟩
  | false =>
    rw [if_neg Bool.false_ne_true]
    have hnor : ¬(r.error.isSome = true ∨ r.stderr.length ≠ 0) := by
      rcases Bool.or_eq_false_iff.mp hcond with ⟨h1, h2⟩
      rintro (h | h)
      · exact absurd h (by simp [h1])
      · exact absurd h (by simpa using h2)
    simp [hnor]

end Depupdate
